import Mathlib

/-!
# Verification of the customer feedback analyser

Shallow embedding of `src/agent-service/app/main.py` (the `/analyze` handler,
its request validation, the demo-mode keyword classifier, and the
production-path fallback), together with theorems settling the specification
claims about it.

Python strings are modelled as Lean `String`; all string operations used by
the source (`.lower()`, `.strip()`, `in` substring test, `len`, `', '.join`)
are given explicit executable definitions over the character list.
-/

namespace FeedbackAnalyser

/-- Python's `str.lower()` for the ASCII strings this program handles:
character-wise lower-casing. -/
def pyLower (s : String) : String := String.mk (s.data.map Char.toLower)

/-- The six ASCII characters of the Unicode White_Space property (space, tab,
newline, vertical tab, form feed, carriage return).  This is the common ASCII
core on which the program's two whitespace-stripping layers agree; the layers
themselves differ outside it (see `isTrimSpace` and `isPythonSpace` below,
which model each layer exactly). -/
def isCoreSpace (c : Char) : Bool :=
  c == ' ' || c == '\t' || c == '\n' || c == '\r' || c == '\x0b' || c == '\x0c'

/-- The Unicode White_Space property: the set trimmed by pydantic v2's
`str_strip_whitespace` (Rust's `str::trim`, `main.py` line 82).  It does not
contain the separators U+001C-U+001F. -/
def isTrimSpace (c : Char) : Bool :=
  c.toNat == 0x20 || (0x9 ≤ c.toNat && c.toNat ≤ 0xD) || c.toNat == 0x85 ||
  c.toNat == 0xA0 || c.toNat == 0x1680 || (0x2000 ≤ c.toNat && c.toNat ≤ 0x200A) ||
  c.toNat == 0x2028 || c.toNat == 0x2029 || c.toNat == 0x202F || c.toNat == 0x205F ||
  c.toNat == 0x3000

/-- The set stripped by Python's `str.strip()` with no arguments (`main.py`
line 211): every Unicode White_Space character plus the separators
U+001C-U+001F, which Python's `str.isspace` counts as whitespace but Rust's
`trim` does not. -/
def isPythonSpace (c : Char) : Bool :=
  isTrimSpace c || (0x1C ≤ c.toNat && c.toNat ≤ 0x1F)

/-- Does `needle` occur at the start of `hay`? (helper for substring search) -/
def seqStarts : List Char → List Char → Bool
  | [], _ => true
  | _ :: _, [] => false
  | a :: as, b :: bs => a == b && seqStarts as bs

/-- Does `needle` occur as a contiguous subsequence of `hay`?  Models
Python's `needle in hay` on strings. -/
def seqContains (needle : List Char) : List Char → Bool
  | [] => needle.isEmpty
  | b :: t => seqStarts needle (b :: t) || seqContains needle t

/-- Python `needle in hay` for strings. -/
def pyContains (needle hay : String) : Bool := seqContains needle.data hay.data

/-- Strip `p`-satisfying characters from both ends of a character list
(Python's `str.strip()` on the underlying characters). -/
def stripList (p : Char → Bool) (l : List Char) : List Char :=
  ((l.dropWhile p).reverse.dropWhile p).reverse

/-- Stripping with the shared ASCII whitespace core.  On inputs whose
boundary characters lie in the ASCII core this coincides with both of the
program's strip layers; `rustStrip` and `pythonStrip` below model each layer
exactly where the two differ. -/
def coreStrip (s : String) : String := String.mk (stripList isCoreSpace s.data)

/-- Pydantic v2's whitespace trim, exactly: strips the Unicode White_Space
characters from both ends. -/
def rustStrip (s : String) : String := String.mk (stripList isTrimSpace s.data)

/-- Python's `str.strip()` with no arguments, exactly: strips Unicode
White_Space plus U+001C-U+001F from both ends. -/
def pythonStrip (s : String) : String := String.mk (stripList isPythonSpace s.data)

/-- `any(word in hay for word in ws)` as used by the classifier. -/
def anyWordIn (ws : List String) (hay : String) : Bool :=
  ws.any fun w => pyContains w hay

/-- Keyword set of the Complaint rule (`main.py` line 236). -/
def complaintWords : List String :=
  ["hate", "terrible", "awful", "worst", "complaint", "problem", "issue", "broken"]

/-- Keyword set of the Praise rule (`main.py` line 246). -/
def praiseWords : List String :=
  ["love", "amazing", "excellent", "great", "fantastic", "wonderful", "praise"]

/-- Keyword set of the Suggestion rule (`main.py` line 256). -/
def suggestionWords : List String :=
  ["suggest", "could", "should", "improve", "idea", "recommendation"]

/-- Entity vocabulary scanned in order (`main.py` line 279). -/
def entityKeywords : List String :=
  ["product", "service", "staff", "website", "app", "delivery", "quality", "price", "support"]

/-- The analysis record built by the demo-mode branch of `analyze_feedback`
(the `result` object of the JSON response). -/
structure DemoResult where
  feedback : String
  category : String
  entities : List String
  summary : String
  sentiment : String
  priority : String
  route : String
  action_items : List String
  trend_analysis : String
deriving DecidableEq, Repr

/-- The demo-mode classifier: the body of `analyze_feedback` for
`demo_mode = True` (`main.py` lines 233-300), translated clause by clause. -/
def analyzeDemo (feedback : String) : DemoResult :=
  let feedback_lower := pyLower feedback
  let tuple :=
    if anyWordIn complaintWords feedback_lower then
      ("Complaint", "Negative", "High", "Customer Service Team",
        ["Contact customer within 24 hours to address concerns",
         "Investigate reported issues and provide solutions",
         "Follow up to ensure customer satisfaction"])
    else if anyWordIn praiseWords feedback_lower then
      ("Praise", "Positive", "Medium", "HR/Employee Recognition",
        ["Share positive feedback with relevant team members",
         "Consider featuring this feedback in marketing materials",
         "Recognize employees mentioned in the feedback"])
    else if anyWordIn suggestionWords feedback_lower then
      ("Suggestion", "Neutral", "Medium", "Product Development",
        ["Review suggestion with product development team",
         "Assess feasibility of implementing suggested improvements",
         "Consider including in product roadmap"])
    else
      ("Query", "Neutral", "Low", "FAQ/Knowledge Base Update",
        ["Provide detailed response to customer query",
         "Update FAQ if this is a common question",
         "Ensure knowledge base has relevant information"])
  let category := tuple.1
  let sentiment := tuple.2.1
  let priority := tuple.2.2.1
  let route := tuple.2.2.2.1
  let action_items := tuple.2.2.2.2
  let entities0 := entityKeywords.filter fun k => pyContains k feedback_lower
  let entities := if entities0.isEmpty then ["general feedback"] else entities0
  { feedback := feedback
    category := category
    entities := entities
    summary := "Customer provided " ++ pyLower sentiment ++ " feedback regarding "
      ++ String.intercalate ", " entities
    sentiment := sentiment
    priority := priority
    route := route
    action_items := action_items
    trend_analysis := sentiment ++ " customer sentiment in " ++ pyLower category ++ " category" }

/-! ## Spec-side description of the classification rule

The spec (§4.1) describes category selection as first-match-wins over an
ordered rule list, with sentiment, priority, route and action_items each
determined 1:1 by the chosen category.  These definitions follow the spec's
words; claim C1 compares them with `analyzeDemo`, which follows the source. -/

/-- The four categories of the spec's data model. -/
inductive Category
  | Complaint
  | Praise
  | Suggestion
  | Query
deriving DecidableEq, Repr

/-- The spec's ordered rule list: keyword set paired with the category the
rule selects.  The final Query rule is the fall-through default. -/
def ruleTable : List (List String × Category) :=
  [(complaintWords, .Complaint), (praiseWords, .Praise), (suggestionWords, .Suggestion)]

/-- First-match-wins scan of a rule list against the lower-cased input. -/
def firstMatch (lower : String) : List (List String × Category) → Category
  | [] => .Query
  | (ws, c) :: rest => if anyWordIn ws lower then c else firstMatch lower rest

/-- Spec-side category selection: first matching rule of `ruleTable`,
case-insensitive substring match against the lower-cased input. -/
def specCategory (feedback : String) : Category :=
  firstMatch (pyLower feedback) ruleTable

/-- The display name of a category. -/
def categoryLabel : Category → String
  | .Complaint => "Complaint"
  | .Praise => "Praise"
  | .Suggestion => "Suggestion"
  | .Query => "Query"

/-- Sentiment determined 1:1 by the category (spec §4.1 rules 1-4). -/
def sentimentOf : Category → String
  | .Complaint => "Negative"
  | .Praise => "Positive"
  | .Suggestion => "Neutral"
  | .Query => "Neutral"

/-- Priority determined 1:1 by the category. -/
def priorityOf : Category → String
  | .Complaint => "High"
  | .Praise => "Medium"
  | .Suggestion => "Medium"
  | .Query => "Low"

/-- Route determined 1:1 by the category. -/
def routeOf : Category → String
  | .Complaint => "Customer Service Team"
  | .Praise => "HR/Employee Recognition"
  | .Suggestion => "Product Development"
  | .Query => "FAQ/Knowledge Base Update"

/-- The fixed 3-element action-item list of each category. -/
def actionItemsOf : Category → List String
  | .Complaint =>
      ["Contact customer within 24 hours to address concerns",
       "Investigate reported issues and provide solutions",
       "Follow up to ensure customer satisfaction"]
  | .Praise =>
      ["Share positive feedback with relevant team members",
       "Consider featuring this feedback in marketing materials",
       "Recognize employees mentioned in the feedback"]
  | .Suggestion =>
      ["Review suggestion with product development team",
       "Assess feasibility of implementing suggested improvements",
       "Consider including in product roadmap"]
  | .Query =>
      ["Provide detailed response to customer query",
       "Update FAQ if this is a common question",
       "Ensure knowledge base has relevant information"]

/-! ## The `/analyze` endpoint

Model of request validation (the pydantic `FeedbackRequest` model:
whitespace-stripping, then length 1..10000) and of the handler body,
parametrised by the demo classifier and the opaque agent-graph pipeline
collaborator. -/

/-- Pydantic validation of `FeedbackRequest` (`main.py` lines 78-85):
the string field is whitespace-stripped, then its length must lie in
1..10000; failure is a 422 client error before the handler runs.  Stripping
is modelled with the shared ASCII core, which agrees with pydantic's trim on
ASCII input; `validateFeedbackFull` below models the trim set exactly. -/
def validateFeedback (raw : String) : Except Nat String :=
  if (coreStrip raw).length < 1 then Except.error 422
  else if 10000 < (coreStrip raw).length then Except.error 422
  else Except.ok (coreStrip raw)

/-- The JSON body returned by a successful `/analyze` call: status string,
the result record, and the optional fallback note. -/
structure AnalyzeResponse where
  status : String
  result : DemoResult
  note : Option String
deriving DecidableEq, Repr

/-- Outcome of a request to `/analyze`: a success body, or an HTTP client
error with its status code and detail string. -/
inductive AnalyzeOutcome
  | success (body : AnalyzeResponse)
  | clientError (code : Nat) (detail : String)
deriving DecidableEq, Repr

/-- The fixed fallback result substituted when the pipeline collaborator
raises (`main.py` lines 327-341). -/
def fallbackResult (feedback : String) : DemoResult :=
  { feedback := feedback
    category := "Query"
    entities := ["general feedback"]
    summary := "Customer feedback processed with fallback analysis"
    sentiment := "Neutral"
    priority := "Medium"
    route := "General Support"
    action_items := ["Review customer feedback manually"]
    trend_analysis := "Fallback analysis due to system limitations" }

/-- Reading `DEMO_MODE` in the `/analyze` handler (`main.py` line 227):
default `"true"` when the variable is unset. -/
def analyzeDemoMode (env : String → Option String) : Bool :=
  pyLower ((env "DEMO_MODE").getD "true") == "true"

/-- Reading `DEMO_MODE` in the root `index` endpoint (`main.py` line 163):
default `"false"` when the variable is unset. -/
def indexDemoModeFlag (env : String → Option String) : Bool :=
  pyLower ((env "DEMO_MODE").getD "false") == "true"

/-- The body of the `analyze_feedback` handler (`main.py` lines 207-341)
after pydantic validation produced `validated`.  The handler re-strips the
feedback, re-checks emptiness and length (400 on failure), then takes the
demo path or invokes the pipeline collaborator, substituting
`fallbackResult` when the collaborator raises.  `classify` abstracts the
demo-mode classifier and `pipeline` abstracts `agent_graph.invoke` so that
non-invocation on the error paths is expressible.  The handler's strip is
modelled with the shared ASCII core; `analyzeHandlerPy` below models
Python's strip set exactly, where it differs from pydantic's trim. -/
def analyzeHandler (env : String → Option String)
    (classify : String → DemoResult)
    (pipeline : String → Except String DemoResult)
    (validated : String) : AnalyzeOutcome :=
  if coreStrip validated = "" then
    .clientError 400 "Feedback text cannot be empty"
  else if 10000 < (coreStrip validated).length then
    .clientError 400 "Feedback text too long (max 10,000 characters)"
  else if analyzeDemoMode env then
    .success { status := "success", result := classify (coreStrip validated), note := none }
  else
    match pipeline (coreStrip validated) with
    | Except.ok r => .success { status := "success", result := r, note := none }
    | Except.error _ =>
        .success { status := "success", result := fallbackResult (coreStrip validated)
                   note := some "Processed with fallback analysis" }

/-- The full `/analyze` route: pydantic validation, then the handler. -/
def analyzeRoute (env : String → Option String)
    (classify : String → DemoResult)
    (pipeline : String → Except String DemoResult)
    (raw : String) : AnalyzeOutcome :=
  match validateFeedback raw with
  | Except.error code => .clientError code "Invalid input data"
  | Except.ok v => analyzeHandler env classify pipeline v

/-- Pydantic validation of `FeedbackRequest` with the trim set modelled
exactly (Unicode White_Space, excluding U+001C-U+001F). -/
def validateFeedbackFull (raw : String) : Except Nat String :=
  if (rustStrip raw).length < 1 then Except.error 422
  else if 10000 < (rustStrip raw).length then Except.error 422
  else Except.ok (rustStrip raw)

/-- The `analyze_feedback` handler body with Python's strip set modelled
exactly (Unicode White_Space plus U+001C-U+001F): the two strip layers of
the program genuinely differ on U+001C-U+001F, so a validated value can be
emptied by the handler's own strip. -/
def analyzeHandlerPy (env : String → Option String)
    (classify : String → DemoResult)
    (pipeline : String → Except String DemoResult)
    (validated : String) : AnalyzeOutcome :=
  if pythonStrip validated = "" then
    .clientError 400 "Feedback text cannot be empty"
  else if 10000 < (pythonStrip validated).length then
    .clientError 400 "Feedback text too long (max 10,000 characters)"
  else if analyzeDemoMode env then
    .success { status := "success", result := classify (pythonStrip validated), note := none }
  else
    match pipeline (pythonStrip validated) with
    | Except.ok r => .success { status := "success", result := r, note := none }
    | Except.error _ =>
        .success { status := "success", result := fallbackResult (pythonStrip validated)
                   note := some "Processed with fallback analysis" }

/-- The `/analyze` route with both whitespace layers modelled exactly. -/
def analyzeRouteFull (env : String → Option String)
    (classify : String → DemoResult)
    (pipeline : String → Except String DemoResult)
    (raw : String) : AnalyzeOutcome :=
  match validateFeedbackFull raw with
  | Except.error code => .clientError code "Invalid input data"
  | Except.ok v => analyzeHandlerPy env classify pipeline v

/-! ## Concrete collaborators used to instantiate the parametrised model -/

/-- An environment with no variables set. -/
def envUnset : String → Option String := fun _ => none

/-- An environment that switches the service to the production path. -/
def envProd : String → Option String := fun _ => some "false"

/-- A pipeline collaborator that always succeeds. -/
def stubPipeline : String → Except String DemoResult :=
  fun s => Except.ok (fallbackResult s)

/-- A pipeline collaborator that always raises. -/
def failingPipeline : String → Except String DemoResult :=
  fun _ => Except.error "quota exceeded"

/-- A raw request string of 10,001 characters whose stripped form is `"hi"`:
the text `hi` followed by 9,999 trailing spaces. -/
def longRaw : String := String.mk ('h' :: 'i' :: List.replicate 9999 ' ')

/-! ## Lemmas about stripping and validation -/

theorem stripList_as_rdropWhile (p : Char → Bool) (l : List Char) :
    stripList p l = List.rdropWhile p (l.dropWhile p) := rfl

theorem stripList_dropWhile_self (p : Char → Bool) (l : List Char) :
    (stripList p l).dropWhile p = stripList p l := by
  rw [List.dropWhile_eq_self_iff]
  intro hl
  have hx : stripList p l = List.rdropWhile p (l.dropWhile p) := rfl
  have hpre := List.rdropWhile_prefix (p := p) (l := List.dropWhile p l)
  rw [← hx] at hpre
  have hlen : 0 < (List.dropWhile p l).length :=
    Nat.lt_of_lt_of_le hl (List.IsPrefix.length_le hpre)
  have hzero : (stripList p l).get ⟨0, hl⟩ = (List.dropWhile p l).get ⟨0, hlen⟩ := by
    rw [List.get_eq_getElem, List.get_eq_getElem]
    exact List.IsPrefix.getElem hpre hl
  rw [hzero]
  exact List.dropWhile_get_zero_not p l hlen

theorem stripList_idem (p : Char → Bool) (l : List Char) :
    stripList p (stripList p l) = stripList p l := by
  have hx : stripList p l = List.rdropWhile p (l.dropWhile p) := rfl
  calc stripList p (stripList p l)
      = List.rdropWhile p ((stripList p l).dropWhile p) := rfl
    _ = List.rdropWhile p (stripList p l) := by rw [stripList_dropWhile_self]
    _ = List.rdropWhile p (List.rdropWhile p (l.dropWhile p)) := by rw [hx]
    _ = List.rdropWhile p (l.dropWhile p) := List.rdropWhile_idempotent p _
    _ = stripList p l := rfl

theorem coreStrip_idem (s : String) : coreStrip (coreStrip s) = coreStrip s := by
  show String.mk (stripList isCoreSpace (stripList isCoreSpace s.data)) =
    String.mk (stripList isCoreSpace s.data)
  rw [stripList_idem]

theorem validateFeedback_ok (raw v : String) (h : validateFeedback raw = Except.ok v) :
    v = coreStrip raw ∧ v ≠ "" ∧ v.length ≤ 10000 := by
  unfold validateFeedback at h
  split_ifs at h with h1 h2
  cases h
  refine ⟨rfl, ?_, Nat.not_lt.mp h2⟩
  intro he
  rw [he] at h1
  exact h1 (by decide)

theorem validateFeedback_error (raw : String)
    (h : coreStrip raw = "" ∨ 10000 < (coreStrip raw).length) :
    validateFeedback raw = Except.error 422 := by
  unfold validateFeedback
  rcases h with h | h
  · rw [if_pos]
    rw [h]
    decide
  · rw [if_neg, if_pos h]
    intro hlt
    exact absurd h (by omega)

theorem analyzeHandler_eq (env : String → Option String)
    (classify : String → DemoResult) (pipeline : String → Except String DemoResult)
    (v : String) (h1 : coreStrip v = v) (h2 : v ≠ "") (h3 : v.length ≤ 10000) :
    analyzeHandler env classify pipeline v =
      (if analyzeDemoMode env then
        .success { status := "success", result := classify v, note := none }
      else
        match pipeline v with
        | Except.ok r => .success { status := "success", result := r, note := none }
        | Except.error _ =>
            .success { status := "success", result := fallbackResult v
                       note := some "Processed with fallback analysis" }) := by
  unfold analyzeHandler
  rw [h1, if_neg h2, if_neg (Nat.not_lt.mpr h3)]

theorem rdropWhile_append_replicate (p : Char → Bool) (c : Char) (hc : p c = true)
    (u : List Char) : ∀ n, List.rdropWhile p (u ++ List.replicate n c) = List.rdropWhile p u
  | 0 => by simp
  | n + 1 => by
    rw [List.replicate_succ', ← List.append_assoc,
      List.rdropWhile_concat_pos p (u ++ List.replicate n c) c hc,
      rdropWhile_append_replicate p c hc u n]

theorem coreStrip_longRaw : coreStrip longRaw = "hi" := by
  show String.mk (stripList isCoreSpace ('h' :: 'i' :: List.replicate 9999 ' ')) = "hi"
  have h1 : List.dropWhile isCoreSpace ('h' :: 'i' :: List.replicate 9999 ' ')
      = 'h' :: 'i' :: List.replicate 9999 ' ' := by
    have hh : isCoreSpace 'h' = false := by decide
    rw [List.dropWhile_cons, hh]
    simp only [Bool.false_eq_true, if_false]
  rw [stripList_as_rdropWhile, h1,
    show ('h' :: 'i' :: List.replicate 9999 ' ') = ['h', 'i'] ++ List.replicate 9999 ' ' from rfl,
    rdropWhile_append_replicate isCoreSpace ' ' (by decide) ['h', 'i'] 9999]
  decide

theorem longRaw_length : longRaw.length = 10001 := by
  show ('h' :: 'i' :: List.replicate 9999 ' ').length = 10001
  simp only [List.length_cons, List.length_replicate]

theorem demo_entities_projection (s : String) :
    (analyzeDemo s).entities =
      (if (entityKeywords.filter fun k => pyContains k (pyLower s)).isEmpty
       then ["general feedback"]
       else entityKeywords.filter fun k => pyContains k (pyLower s)) := by
  simp [analyzeDemo]

/-! ## The claims -/

/-- Claim C1: for every feedback string, the demo-mode classifier selects the
category by first-match-wins over the spec's ordered rule list
(Complaint > Praise > Suggestion > Query, with Query the fall-through
default), and sentiment, priority, route and the 3-element action_items list
are each determined 1:1 by the chosen category. -/
theorem claim_C1_rule_table (s : String) :
    (analyzeDemo s).category = categoryLabel (specCategory s) ∧
    (analyzeDemo s).sentiment = sentimentOf (specCategory s) ∧
    (analyzeDemo s).priority = priorityOf (specCategory s) ∧
    (analyzeDemo s).route = routeOf (specCategory s) ∧
    (analyzeDemo s).action_items = actionItemsOf (specCategory s) ∧
    (analyzeDemo s).action_items.length = 3 := by
  cases h1 : anyWordIn complaintWords (pyLower s) <;>
  cases h2 : anyWordIn praiseWords (pyLower s) <;>
  cases h3 : anyWordIn suggestionWords (pyLower s) <;>
  simp [analyzeDemo, specCategory, ruleTable, firstMatch, h1, h2, h3,
    categoryLabel, sentimentOf, priorityOf, routeOf, actionItemsOf]

/-- Claim C2: whenever the production (non-demo) path is taken on a validated
request and the pipeline invocation raises any exception, the `/analyze`
route returns a success response whose result is exactly the fixed fallback
record (category Query, entities ["general feedback"], sentiment Neutral,
priority Medium, route "General Support", one manual-review action item, the
fixed fallback trend_analysis), carrying the fallback note; the error is not
surfaced to the caller. -/
theorem claim_C2_fallback (env : String → Option String)
    (classify : String → DemoResult) (pipeline : String → Except String DemoResult)
    (raw v e : String)
    (hval : validateFeedback raw = Except.ok v)
    (hprod : analyzeDemoMode env = false)
    (herr : pipeline v = Except.error e) :
    analyzeRoute env classify pipeline raw =
      .success { status := "success", result := fallbackResult v
                 note := some "Processed with fallback analysis" } ∧
    (fallbackResult v).category = "Query" ∧
    (fallbackResult v).entities = ["general feedback"] ∧
    (fallbackResult v).sentiment = "Neutral" ∧
    (fallbackResult v).priority = "Medium" ∧
    (fallbackResult v).route = "General Support" ∧
    (fallbackResult v).action_items = ["Review customer feedback manually"] ∧
    (fallbackResult v).trend_analysis = "Fallback analysis due to system limitations" := by
  obtain ⟨hv, hne, hlen⟩ := validateFeedback_ok raw v hval
  have hs : coreStrip v = v := by rw [hv, coreStrip_idem]
  refine ⟨?_, rfl, rfl, rfl, rfl, rfl, rfl, rfl⟩
  unfold analyzeRoute
  rw [hval]
  show analyzeHandler env classify pipeline v = _
  rw [analyzeHandler_eq env classify pipeline v hs hne hlen, hprod, herr]
  rfl

/-- Witness for claim C2: a concrete production-mode environment and a
concretely failing pipeline on the request "hello". -/
theorem claim_C2_witness :
    validateFeedback "hello" = Except.ok "hello" ∧
    analyzeDemoMode envProd = false ∧
    failingPipeline "hello" = Except.error "quota exceeded" ∧
    analyzeRoute envProd analyzeDemo failingPipeline "hello" =
      .success { status := "success", result := fallbackResult "hello"
                 note := some "Processed with fallback analysis" } :=
  ⟨rfl, rfl, rfl,
    (claim_C2_fallback envProd analyzeDemo failingPipeline "hello" "hello" "quota exceeded"
      rfl rfl rfl).1⟩

/-- Claim C3: the entities field of the demo-mode result is the sublist of
the fixed vocabulary containing exactly the keywords occurring
case-insensitively in the input, in vocabulary-scan order; when none of the
nine keywords occurs it is exactly ["general feedback"]. -/
theorem claim_C3_entities (s : String) :
    ((∀ k ∈ entityKeywords, pyContains k (pyLower s) = false) →
        (analyzeDemo s).entities = ["general feedback"]) ∧
    ((∃ k ∈ entityKeywords, pyContains k (pyLower s) = true) →
      ((analyzeDemo s).entities.Sublist entityKeywords ∧
        ∀ k, k ∈ (analyzeDemo s).entities ↔
          (k ∈ entityKeywords ∧ pyContains k (pyLower s) = true))) := by
  rw [demo_entities_projection]
  cases h : (entityKeywords.filter fun k => pyContains k (pyLower s)).isEmpty
  case true =>
    rw [List.isEmpty_iff] at h
    constructor
    · intro _; simp
    · rintro ⟨k, hk, hc⟩
      have := List.filter_eq_nil_iff.mp h k hk
      simp [hc] at this
  case false =>
    rw [Bool.eq_false_iff] at h
    constructor
    · intro hall
      exfalso
      apply h
      rw [List.isEmpty_iff, List.filter_eq_nil_iff]
      intro k hk
      simp [hall k hk]
    · intro _
      simp only [Bool.false_eq_true, if_false]
      refine ⟨List.filter_sublist entityKeywords, fun k => ?_⟩
      simp [List.mem_filter]

/-- Witness for claim C3: on "the app price is fine" both branches are
exercised concretely — "app" and "price" are found in vocabulary-scan
order, and on "hello" no keyword matches. -/
theorem claim_C3_witness :
    (∃ k ∈ entityKeywords, pyContains k (pyLower "the app price is fine") = true) ∧
    (analyzeDemo "the app price is fine").entities.Sublist entityKeywords ∧
    (∀ k ∈ entityKeywords, pyContains k (pyLower "hello") = false) ∧
    (analyzeDemo "hello").entities = ["general feedback"] :=
  ⟨⟨"app", by decide, by decide⟩,
    ((claim_C3_entities "the app price is fine").2 ⟨"app", by decide, by decide⟩).1,
    by decide,
    (claim_C3_entities "hello").1 (by decide)⟩

/-- Claim C4: the demo-mode classifier is total — for every non-empty input
it yields a complete result: the category is one of the four fixed ones,
sentiment and priority come from their fixed enumerations, entities is
never empty, action_items always has 3 elements, and when no keyword set
matches, the final else branch guarantees a Query result. -/
theorem claim_C4_total (s : String) (h : s ≠ "") :
    (analyzeDemo s).category ∈ ["Complaint", "Praise", "Suggestion", "Query"] ∧
    (analyzeDemo s).sentiment ∈ ["Negative", "Positive", "Neutral"] ∧
    (analyzeDemo s).priority ∈ ["High", "Medium", "Low"] ∧
    (analyzeDemo s).entities ≠ [] ∧
    (analyzeDemo s).action_items.length = 3 ∧
    (analyzeDemo s).feedback = s ∧
    (anyWordIn complaintWords (pyLower s) = false →
      anyWordIn praiseWords (pyLower s) = false →
      anyWordIn suggestionWords (pyLower s) = false →
      (analyzeDemo s).category = "Query") := by
  cases h1 : anyWordIn complaintWords (pyLower s) <;>
  cases h2 : anyWordIn praiseWords (pyLower s) <;>
  cases h3 : anyWordIn suggestionWords (pyLower s) <;>
  cases h4 : (entityKeywords.filter fun k => pyContains k (pyLower s)).isEmpty <;>
  simp [analyzeDemo, h1, h2, h3, h4] <;>
  first
    | rfl
    | (rw [Bool.eq_false_iff, ne_eq, List.isEmpty_iff] at h4
       obtain ⟨x, hx⟩ := List.exists_mem_of_ne_nil _ h4
       obtain ⟨hmem, hp⟩ := List.mem_filter.mp hx
       exact ⟨x, hmem, hp⟩)

/-- Witness for claim C4: the non-empty input "hi" matches no keyword set
and lands in the Query default. -/
theorem claim_C4_witness :
    ("hi" : String) ≠ "" ∧ (analyzeDemo "hi").category = "Query" := by
  refine ⟨by decide, ?_⟩
  have h := claim_C4_total "hi" (by decide)
  exact h.2.2.2.2.2.2 (by decide) (by decide) (by decide)

/-- Claim C5: demo-mode classification is a deterministic pure function of
the input text alone — two invocations on the same input yield identical
results. -/
theorem claim_C5_deterministic (x : String) : analyzeDemo x = analyzeDemo x := rfl

/-- Claim C6: the summary field is templated from the lower-cased sentiment
and the comma-joined entities, and trend_analysis from the sentiment and
the lower-cased category, exactly as computed for that input. -/
theorem claim_C6_summary_trend (s : String) :
    (analyzeDemo s).summary =
      "Customer provided " ++ pyLower (analyzeDemo s).sentiment
        ++ " feedback regarding " ++ String.intercalate ", " (analyzeDemo s).entities ∧
    (analyzeDemo s).trend_analysis =
      (analyzeDemo s).sentiment ++ " customer sentiment in "
        ++ pyLower (analyzeDemo s).category ++ " category" := by
  cases h1 : anyWordIn complaintWords (pyLower s) <;>
  cases h2 : anyWordIn praiseWords (pyLower s) <;>
  cases h3 : anyWordIn suggestionWords (pyLower s) <;>
  simp [analyzeDemo, h1, h2, h3]

/-- Claim C7 as amended: for every request whose feedback is empty or
whitespace-only, or is longer than 10,000 characters after whitespace
stripping, the `/analyze` route returns a client error (422) before any
classification runs — the outcome is the same for every classifier and
pipeline, so neither is ever invoked. -/
theorem claim_C7_boundary (env1 env2 : String → Option String)
    (c1 c2 : String → DemoResult) (p1 p2 : String → Except String DemoResult)
    (raw : String)
    (h : coreStrip raw = "" ∨ 10000 < (coreStrip raw).length) :
    analyzeRoute env1 c1 p1 raw = .clientError 422 "Invalid input data" ∧
    analyzeRoute env1 c1 p1 raw = analyzeRoute env2 c2 p2 raw := by
  have hv := validateFeedback_error raw h
  constructor
  · unfold analyzeRoute
    rw [hv]
  · unfold analyzeRoute
    rw [hv]

/-- Witness for claim C7 (amended): the whitespace-only request "   " is
rejected with a 422 regardless of environment, classifier and pipeline. -/
theorem claim_C7_witness :
    (coreStrip "   " = "" ∨ 10000 < (coreStrip "   ").length) ∧
    analyzeRoute envUnset analyzeDemo stubPipeline "   " =
      .clientError 422 "Invalid input data" ∧
    analyzeRoute envUnset analyzeDemo stubPipeline "   " =
      analyzeRoute envProd analyzeDemo failingPipeline "   " :=
  ⟨Or.inl rfl,
    (claim_C7_boundary envUnset envProd analyzeDemo analyzeDemo stubPipeline failingPipeline
      "   " (Or.inl rfl)).1,
    (claim_C7_boundary envUnset envProd analyzeDemo analyzeDemo stubPipeline failingPipeline
      "   " (Or.inl rfl)).2⟩

/-- Counterexample to claim C7 as stated: `longRaw` is a request of 10,001
characters ("hi" followed by 9,999 spaces), yet the route accepts it — the
pydantic model strips whitespace before checking the 10,000-character bound,
so no client error is returned and the classifier runs on "hi". -/
theorem claim_C7_counterexample :
    longRaw.length = 10001 ∧
    analyzeRoute envUnset analyzeDemo stubPipeline longRaw =
      .success { status := "success", result := analyzeDemo "hi", note := none } := by
  refine ⟨longRaw_length, ?_⟩
  have hval : validateFeedback longRaw = Except.ok "hi" := by
    unfold validateFeedback
    rw [coreStrip_longRaw]
    rfl
  unfold analyzeRoute
  rw [hval]
  show analyzeHandler envUnset analyzeDemo stubPipeline "hi" = _
  rw [analyzeHandler_eq envUnset analyzeDemo stubPipeline "hi" rfl (by decide) (by decide)]
  rfl

/-- Claim C8: the two concrete demo-mode scenarios of the spec hold:
"This app is terrible and broken" is a High-priority Negative Complaint
about the app routed to the Customer Service Team, and "What are your
hours?" is a Low-priority Neutral Query with the sentinel entities routed
to FAQ/Knowledge Base Update. -/
theorem claim_C8_concrete_scenarios :
    (analyzeDemo "This app is terrible and broken").category = "Complaint" ∧
    (analyzeDemo "This app is terrible and broken").sentiment = "Negative" ∧
    (analyzeDemo "This app is terrible and broken").priority = "High" ∧
    (analyzeDemo "This app is terrible and broken").entities = ["app"] ∧
    (analyzeDemo "This app is terrible and broken").route = "Customer Service Team" ∧
    (analyzeDemo "What are your hours?").category = "Query" ∧
    (analyzeDemo "What are your hours?").sentiment = "Neutral" ∧
    (analyzeDemo "What are your hours?").priority = "Low" ∧
    (analyzeDemo "What are your hours?").entities = ["general feedback"] ∧
    (analyzeDemo "What are your hours?").route = "FAQ/Knowledge Base Update" := by
  decide

/-- Claim C9: when DEMO_MODE is unset, the `/analyze` handler defaults it to
"true" and takes the demo path (so the pipeline is never consulted), while
the root index endpoint defaults it to "false" and reports demo_mode as
false — the two endpoints read the variable ad hoc with inconsistent
defaults. -/
theorem claim_C9_mode_defaults (env : String → Option String)
    (h : env "DEMO_MODE" = none) :
    analyzeDemoMode env = true ∧
    indexDemoModeFlag env = false ∧
    ∀ (classify : String → DemoResult) (p1 p2 : String → Except String DemoResult)
      (v : String), analyzeHandler env classify p1 v = analyzeHandler env classify p2 v := by
  have hd : analyzeDemoMode env = true := by
    unfold analyzeDemoMode
    rw [h]
    rfl
  refine ⟨hd, ?_, ?_⟩
  · unfold indexDemoModeFlag
    rw [h]
    rfl
  · intro classify p1 p2 v
    unfold analyzeHandler
    rw [hd]
    simp

/-- Witness for claim C9: the empty environment concretely yields demo mode
true at `/analyze`, demo_mode false at the index, and a pipeline-independent
handler. -/
theorem claim_C9_witness :
    envUnset "DEMO_MODE" = none ∧
    analyzeDemoMode envUnset = true ∧
    indexDemoModeFlag envUnset = false ∧
    analyzeHandler envUnset analyzeDemo stubPipeline "hi" =
      analyzeHandler envUnset analyzeDemo failingPipeline "hi" :=
  ⟨rfl, (claim_C9_mode_defaults envUnset rfl).1, (claim_C9_mode_defaults envUnset rfl).2.1,
    (claim_C9_mode_defaults envUnset rfl).2.2 analyzeDemo stubPipeline failingPipeline "hi"⟩

theorem stripList_length_le (p : Char → Bool) (l : List Char) :
    (stripList p l).length ≤ l.length := by
  have h1 : (stripList p l).length ≤ (l.dropWhile p).length :=
    List.IsPrefix.length_le ( List.rdropWhile_prefix (p := p) (l := l.dropWhile p))
  have h2 : (l.dropWhile p).length ≤ l.length :=
    List.IsSuffix.length_le (List.dropWhile_suffix p)
  exact le_trans h1 h2

theorem pythonStrip_length_le (s : String) : (pythonStrip s).length ≤ s.length := by
  show (stripList isPythonSpace s.data).length ≤ s.data.length
  exact stripList_length_le isPythonSpace s.data

theorem validateFeedbackFull_ok (raw v : String)
    (h : validateFeedbackFull raw = Except.ok v) :
    v = rustStrip raw ∧ v ≠ "" ∧ v.length ≤ 10000 := by
  unfold validateFeedbackFull at h
  split_ifs at h with h1 h2
  cases h
  refine ⟨rfl, ?_, Nat.not_lt.mp h2⟩
  intro he
  rw [he] at h1
  exact h1 (by decide)

/-- Counterexample to claim C10 as stated: the one-character request U+001C
(File Separator) passes pydantic validation — Rust's trim leaves it intact,
it is non-empty and within the length bound — yet the handler's own Python
`.strip()` removes U+001C, empties the feedback, and the 400
empty-feedback branch at `main.py` lines 212-216 is reached. -/
theorem claim_C10_counterexample :
    validateFeedbackFull "\x1c" = Except.ok "\x1c" ∧
    analyzeRouteFull envUnset analyzeDemo stubPipeline "\x1c" =
      .clientError 400 "Feedback text cannot be empty" :=
  ⟨rfl, rfl⟩

/-- Claim C10 as amended: for any request that passes the model's
validation, the feedback seen inside the handler after its own strip is at
most 10,000 characters, so the over-length 400 branch is unreachable, and
the only client error the handler can still produce is the 400
empty-feedback error, which occurs exactly when the handler's Python strip
empties the validated value (possible only for values consisting of the
separators U+001C-U+001F, which pydantic's trim does not remove); for every
validated value whose Python-stripped form is non-empty, no 400 branch is
reachable. -/
theorem claim_C10_handler_errors (raw v : String)
    (h : validateFeedbackFull raw = Except.ok v) :
    (pythonStrip v).length ≤ 10000 ∧
    (∀ (env : String → Option String) (classify : String → DemoResult)
       (pipeline : String → Except String DemoResult) (code : Nat) (detail : String),
       analyzeHandlerPy env classify pipeline v = .clientError code detail →
         code = 400 ∧ detail = "Feedback text cannot be empty" ∧ pythonStrip v = "") ∧
    (∀ (env : String → Option String) (classify : String → DemoResult)
       (pipeline : String → Except String DemoResult) (code : Nat) (detail : String),
       pythonStrip v ≠ "" →
         analyzeHandlerPy env classify pipeline v ≠ .clientError code detail) := by
  obtain ⟨hv, hne, hlen⟩ := validateFeedbackFull_ok raw v h
  have hplen : (pythonStrip v).length ≤ 10000 :=
    le_trans (pythonStrip_length_le v) hlen
  have hchar : ∀ (env : String → Option String) (classify : String → DemoResult)
      (pipeline : String → Except String DemoResult) (code : Nat) (detail : String),
      analyzeHandlerPy env classify pipeline v = .clientError code detail →
        code = 400 ∧ detail = "Feedback text cannot be empty" ∧ pythonStrip v = "" := by
    intro env classify pipeline code detail hEq
    unfold analyzeHandlerPy at hEq
    by_cases he : pythonStrip v = ""
    · rw [if_pos he] at hEq
      cases hEq
      exact ⟨rfl, rfl, he⟩
    · rw [if_neg he, if_neg (Nat.not_lt.mpr hplen)] at hEq
      cases hd : analyzeDemoMode env <;> rw [hd] at hEq
      · simp only [Bool.false_eq_true, if_false] at hEq
        cases hp : pipeline (pythonStrip v) <;> rw [hp] at hEq <;> cases hEq
      · rw [if_pos rfl] at hEq
        cases hEq
  exact ⟨hplen, hchar, fun env classify pipeline code detail hne hEq =>
    hne (hchar env classify pipeline code detail hEq).2.2⟩

/-- Witness for claim C10 (amended): the padded request "  hi  " validates
to "hi", whose Python strip is non-empty, so the handler cannot produce the
400 empty-feedback error there. -/
theorem claim_C10_witness :
    validateFeedbackFull "  hi  " = Except.ok "hi" ∧
    (pythonStrip "hi").length ≤ 10000 ∧
    analyzeHandlerPy envUnset analyzeDemo stubPipeline "hi" ≠
      .clientError 400 "Feedback text cannot be empty" :=
  ⟨rfl, (claim_C10_handler_errors "  hi  " "hi" rfl).1,
    (claim_C10_handler_errors "  hi  " "hi" rfl).2.2 envUnset analyzeDemo stubPipeline
      400 "Feedback text cannot be empty" (by decide)⟩

end FeedbackAnalyser
